import Mathlib

/-!
Verification of the DeepWiki knowledge-base pipeline against its
implementation.

The development shallowly embeds the Python modules
`deepwiki/database_versioning.py`, `deepwiki/exceptions.py` and
`deepwiki/knowledge_base.py`.  Pure functions become Lean functions;
the filesystem is an explicit map from paths to stored values; pickled
Python values are modelled by the inductive `PyVal` (pickle round-trips
values unchanged); fallible code returns `Except`.
-/

namespace DeepWiki

/-- Model of a (picklable) Python value: what `pickle.dump`/`pickle.load`
round-trip through a file.  Dicts are modelled with string keys, which
covers every record the versioned store reads or writes. -/
inductive PyVal where
  | noneV : PyVal
  | boolV (b : Bool) : PyVal
  | intV (n : Int) : PyVal
  | strV (s : String) : PyVal
  | listV (xs : List PyVal) : PyVal
  | dictV (entries : List (String × PyVal)) : PyVal

/-- Python exceptions that the embedded code can raise.
`schemaMismatch` embeds `SchemaMismatchError(found_version,
expected_version)` from `deepwiki/exceptions.py`; the found version is a
`PyVal` because the tag read from a record may be any value. -/
inductive PyErr where
  | fileNotFound (msg : String) : PyErr
  | schemaMismatch (found : PyVal) (expected : String) : PyErr
  | keyError (key : String) : PyErr
  | runtimeError (msg : String) : PyErr

/-- The filesystem seen by the versioned store: each path optionally
holds one pickled value. -/
def Store : Type := String → Option PyVal

/-- From `database_versioning.py`: the current database schema version. -/
def CURRENT_SCHEMA_VERSION : String := "1.0.0"

/-- Python dict lookup `d[k]` restricted to string keys: the first
entry with the given key, if any (keys of a Python dict are unique). -/
def dictLookup : List (String × PyVal) → String → Option PyVal
  | [], _ => Option.none
  | (k, v) :: rest, key => if k = key then some v else dictLookup rest key

/-- Python `x == s` where `s` is a `str`: true exactly when `x` is the
same string (comparison with a non-string value is unequal). -/
def pyEqStr : PyVal → String → Bool
  | .strV s, t => s == t
  | _, _ => false

/-- Embeds `save_state_with_version(obj, filepath)` from
`database_versioning.py`: pickles
`{"schema_version": CURRENT_SCHEMA_VERSION, "data": obj}` to
`filepath`, overwriting whatever was there. -/
def save_state_with_version (obj : PyVal) (filepath : String) (fs : Store) : Store :=
  fun p =>
    if p = filepath then
      some (.dictV [("schema_version", .strV CURRENT_SCHEMA_VERSION), ("data", obj)])
    else fs p

/-- Embeds `load_state_with_version(filepath)` from
`database_versioning.py`: `FileNotFoundError` when the path holds
nothing; `SchemaMismatchError("unknown", CURRENT_SCHEMA_VERSION)` when
the record is not a dict or has no `"schema_version"` key;
`SchemaMismatchError(found, CURRENT_SCHEMA_VERSION)` when the tag
differs from the current version; otherwise the record's `"data"`
entry (`data["data"]`, a `KeyError` when absent). -/
def load_state_with_version (filepath : String) (fs : Store) : Except PyErr PyVal :=
  match fs filepath with
  | Option.none => .error (.fileNotFound ("Database file not found: " ++ filepath))
  | some data =>
    match data with
    | .dictV entries =>
      match dictLookup entries "schema_version" with
      | Option.none => .error (.schemaMismatch (.strV "unknown") CURRENT_SCHEMA_VERSION)
      | some found =>
        if pyEqStr found CURRENT_SCHEMA_VERSION then
          match dictLookup entries "data" with
          | some d => .ok d
          | Option.none => .error (.keyError "data")
        else
          .error (.schemaMismatch found CURRENT_SCHEMA_VERSION)
    | _ => .error (.schemaMismatch (.strV "unknown") CURRENT_SCHEMA_VERSION)

/-- A record in the legacy unversioned format: not a dict at all, or a
dict without a `"schema_version"` entry. -/
def unversionedRecord : PyVal → Prop
  | .dictV entries => dictLookup entries "schema_version" = Option.none
  | _ => True

/-- Python `s.split('/')` on the character list of a string: splits at
every `'/'`, keeping empty pieces; the empty string yields `[[]]`. -/
def splitOnSlash : List Char → List (List Char)
  | [] => [[]]
  | '/' :: rest => [] :: splitOnSlash rest
  | c :: rest =>
    match splitOnSlash rest with
    | s :: ss => (c :: s) :: ss
    | [] => [[c]]

/-- Python `s.strip('/')`: removes leading and trailing `'/'`
characters. -/
def stripSlashes (cs : List Char) : List Char :=
  ((cs.dropWhile (· == '/')).reverse.dropWhile (· == '/')).reverse

/-- Python `s.replace('.git', '')`: removes every occurrence of the
substring `".git"`, scanning left to right without overlap. -/
def removeGitAll : List Char → List Char
  | '.' :: 'g' :: 'i' :: 't' :: rest => removeGitAll rest
  | c :: rest => c :: removeGitAll rest
  | [] => []

/-- Locates the first `"://"` in the input and returns what follows it,
or `Option.none` when the input has no scheme separator. -/
def afterSchemeSep : List Char → Option (List Char)
  | ':' :: '/' :: '/' :: rest => some rest
  | _ :: rest => afterSchemeSep rest
  | [] => Option.none

/-- Drops the network-location part: everything up to (excluding) the
first `'/'`; the result keeps its leading `'/'`, and is empty when the
input has no `'/'`. -/
def dropNetloc : List Char → List Char
  | [] => []
  | '/' :: rest => '/' :: rest
  | _ :: rest => dropNetloc rest

/-- Modelled stdlib call: `urllib.parse.urlparse(url).path`, restricted
to inputs without a query (`?`), fragment (`#`) or a `:` outside the
`"://"` scheme separator — the only inputs the resolver receives.  A
URL with a scheme separator has its scheme and network location
removed; any other string is all path. -/
def urlparsePath (cs : List Char) : List Char :=
  match afterSchemeSep cs with
  | Option.none => cs
  | some rest => dropNetloc rest

/-- Modelled stdlib call: `pathlib.Path(p).name` for POSIX paths — the
final path component, ignoring trailing slashes, empty components and
`"."` components; `""` when there is none. -/
def pathName (p : String) : String :=
  match ((splitOnSlash p.toList).filter
      (fun s => !s.isEmpty && !(s == ['.']))).getLast? with
  | some l => String.mk l
  | Option.none => ""

/-- The URL branch of `KnowledgeBase._extract_repo_identifier`
(`knowledge_base.py` lines 58-72): parse the input as a URL, strip
slashes around the path and split it on `'/'`; with at least two parts
the identifier is `owner + "_" + repo` with every `".git"` removed from
the repo part; with one part, that part with every `".git"` removed;
otherwise the last piece of the raw path, or `"unknown_repo"` when that
is empty. -/
def urlResolve (repo_url_or_path : String) : String :=
  let path := urlparsePath repo_url_or_path.toList
  match splitOnSlash (stripSlashes path) with
  | owner :: repo :: _ => String.mk owner ++ "_" ++ String.mk (removeGitAll repo)
  | [single] => String.mk (removeGitAll single)
  | [] =>
    match (splitOnSlash path).getLast? with
    | some l => if l.isEmpty then "unknown_repo" else String.mk l
    | Option.none => "unknown_repo"

/-- Embeds `KnowledgeBase._extract_repo_identifier(repo_url_or_path)`
(`knowledge_base.py` lines 45-72).  `isdir` is the live filesystem
check `os.path.isdir`: when it holds, the identifier is the directory's
final name (`Path(...).name`); otherwise the input is parsed as a URL
by `urlResolve`. -/
def KnowledgeBase.extract_repo_identifier
    (isdir : String → Bool) (repo_url_or_path : String) : String :=
  if isdir repo_url_or_path then pathName repo_url_or_path
  else urlResolve repo_url_or_path

/-- A retrieved document as returned alongside the answer: the facade
never inspects it, only passes it through. -/
structure RetrievedDoc where
  text : String

/-- The first component of a 2-tuple returned by `rag.call`: either a
`RAGAnswer` instance (carrying its `answer` string) or some other value
(carrying its `str(...)` rendering). -/
inductive RagAnswerVal where
  | ragAnswer (answer : String) : RagAnswerVal
  | nonRagAnswer (strRepr : String) : RagAnswerVal

/-- A value returned by `rag.call`: a 2-tuple `(rag_answer,
retrieved_docs)` or anything else (carrying its `str(...)`
rendering). -/
inductive RagCallResult where
  | tuple2 (first : RagAnswerVal) (docs : List RetrievedDoc) : RagCallResult
  | other (strRepr : String) : RagCallResult

/-- Embeds `KnowledgeBase.query(question, language)`
(`knowledge_base.py` lines 206-234).  `is_ready` is the instance flag;
`call` is the backend `self.rag.call` (from the external `rag` module),
which may return any value or raise — a raised exception is an
`Except.error` carrying its `str(e)`.  Outside any handler, a not-ready
instance raises `RuntimeError`; inside the handler, a backend error
becomes an apologetic answer string with an empty document list. -/
def KnowledgeBase.query (is_ready : Bool)
    (call : String → String → Except String RagCallResult)
    (question language : String) : Except PyErr (String × List RetrievedDoc) :=
  if !is_ready then
    .error (.runtimeError "Knowledge base is not ready. Call build() or load() first.")
  else
    match call question language with
    | .error e =>
      .ok ("I apologize, but I encountered an error while processing your question: "
            ++ e, [])
    | .ok result =>
      match result with
      | .tuple2 rag_answer retrieved_docs =>
        match rag_answer with
        | .ragAnswer answer => .ok (answer, retrieved_docs)
        | .nonRagAnswer s => .ok (s, retrieved_docs)
      | .other s => .ok (s, [])

/-- The keyword arguments of one `self.rag.prepare_retriever(...)` call
(`rag` is an external module; only the call sites in
`knowledge_base.py` fix this shape). -/
structure PrepareArgs where
  repo : String
  repoType : String
  accessToken : Option String
  excludedDirs : Option (List String)
  excludedFiles : Option (List String)
  includedDirs : Option (List String)
  includedFiles : Option (List String)

/-- The `prepare_retriever` arguments used by `KnowledgeBase.load`:
only the repository, its type and the access token; the filter
arguments are left at their defaults (`None`). -/
def loadArgs (repo repoType : String) (token : Option String) : PrepareArgs :=
  ⟨repo, repoType, token, Option.none, Option.none, Option.none, Option.none⟩

/-- The instance attributes of a `KnowledgeBase` object that the
embedded methods read or write (`provider`, `model` and the `rag`
object's internals live in external modules and never feed back into
these methods). -/
structure KBState where
  repo_url_or_path : Option String
  is_ready : Bool

/-- `KnowledgeBase.__init__` (lines 31-43): `repo_url_or_path` is
`None` and `is_ready` is false at construction. -/
def KnowledgeBase.init : KBState :=
  { repo_url_or_path := Option.none, is_ready := false }

/-- Embeds `KnowledgeBase.load(repo_url_or_path, repo_type,
access_token)` (lines 154-191).  `isdir` and `db_exists` are the live
filesystem checks (`os.path.isdir`, and `_database_exists` on the
derived identifier); `prepare` is the backend `self.rag.
prepare_retriever`, whose raised exceptions are `Except.error`s.  The
whole body sits in a `try` whose handler returns `False`; success sets
`is_ready` and returns `True`. -/
def KnowledgeBase.load (isdir db_exists : String → Bool)
    (prepare : PrepareArgs → Except String Unit) (st : KBState)
    (repo_url_or_path repo_type : String) (access_token : Option String) :
    Bool × KBState :=
  let st1 : KBState := { st with repo_url_or_path := some repo_url_or_path }
  let repo_identifier := KnowledgeBase.extract_repo_identifier isdir repo_url_or_path
  if !db_exists repo_identifier then (false, st1)
  else
    match prepare (loadArgs repo_url_or_path repo_type access_token) with
    | .error _ => (false, st1)
    | .ok _ => (true, { st1 with is_ready := true })

/-- Embeds `KnowledgeBase.build(repo_url_or_path, repo_type,
access_token, excluded_dirs, excluded_files, included_dirs,
included_files, force_rebuild)` (lines 100-152).  When the database for
the derived identifier already exists and `force_rebuild` is false, the
method delegates to `load` and returns its result; otherwise it runs
`prepare_retriever` with the full filter arguments, marking the
instance ready on success.  The whole body sits in a `try` whose
handler returns `False`. -/
def KnowledgeBase.build (isdir db_exists : String → Bool)
    (prepare : PrepareArgs → Except String Unit) (st : KBState)
    (repo_url_or_path repo_type : String) (access_token : Option String)
    (excluded_dirs excluded_files included_dirs included_files : Option (List String))
    (force_rebuild : Bool) : Bool × KBState :=
  let st1 : KBState := { st with repo_url_or_path := some repo_url_or_path }
  let repo_identifier := KnowledgeBase.extract_repo_identifier isdir repo_url_or_path
  if !force_rebuild && db_exists repo_identifier then
    KnowledgeBase.load isdir db_exists prepare st1 repo_url_or_path repo_type access_token
  else
    match prepare ⟨repo_url_or_path, repo_type, access_token, excluded_dirs,
        excluded_files, included_dirs, included_files⟩ with
    | .error _ => (false, st1)
    | .ok _ => (true, { st1 with is_ready := true })

/-- Embeds `KnowledgeBase.is_built(repo_url_or_path)` (lines 193-204):
whether a database exists for the derived identifier; reads no instance
state and writes none. -/
def KnowledgeBase.is_built (isdir db_exists : String → Bool)
    (repo_url_or_path : String) : Bool :=
  db_exists (KnowledgeBase.extract_repo_identifier isdir repo_url_or_path)

/-- Embeds `KnowledgeBase.add_conversation_turn(question, answer)`
(lines 236-254): `False` when not ready; otherwise the result of
`self.rag.memory.add_dialog_turn` (the oracle `add_dialog`), with any
raised exception caught and turned into `False`. -/
def KnowledgeBase.add_conversation_turn (is_ready : Bool)
    (add_dialog : String → String → Except String Bool)
    (question answer : String) : Bool :=
  if !is_ready then false
  else
    match add_dialog question answer with
    | .error _ => false
    | .ok b => b

/-- The names of the methods defined on the `KnowledgeBase` class
(`knowledge_base.py` lines 20-259); the class has no other attributes
providing callable behavior (no inheritance beyond `object`, no
`__getattr__`). -/
def KnowledgeBase.methodNames : List String :=
  ["__init__", "_extract_repo_identifier", "_get_database_path",
   "_database_exists", "build", "load", "is_built", "query",
   "add_conversation_turn", "clear_conversation"]

/-- The external world one method call runs against: the live
filesystem checks and the backend (`rag`) operations, each of which may
succeed or raise. -/
structure Env where
  isdir : String → Bool
  db_exists : String → Bool
  prepare : PrepareArgs → Except String Unit
  call : String → String → Except String RagCallResult
  add_dialog : String → String → Except String Bool

/-- One public method call on a `KnowledgeBase` instance, with its
arguments. -/
inductive Op where
  | buildOp (repo repoType : String) (token : Option String)
      (ed ef idl ifl : Option (List String)) (force : Bool) : Op
  | loadOp (repo repoType : String) (token : Option String) : Op
  | isBuiltOp (repo : String) : Op
  | queryOp (question language : String) : Op
  | addTurnOp (question answer : String) : Op
  | clearConvOp : Op

/-- Whether an operation is a `build` or `load` call. -/
def Op.isBuildOrLoad : Op → Bool
  | .buildOp _ _ _ _ _ _ _ _ => true
  | .loadOp _ _ _ => true
  | _ => false

/-- What one method call produces for its caller: a returned boolean, a
returned answer pair, a raised exception, or `None`
(`clear_conversation`). -/
inductive RetVal where
  | bool (b : Bool) : RetVal
  | answer (a : String × List RetrievedDoc) : RetVal
  | raised (e : PyErr) : RetVal
  | noneVal : RetVal

/-- Runs one method call against an environment: the value produced for
the caller and the instance state afterwards.  `clear_conversation`
only replaces `rag.memory`, which is outside `KBState`, so it leaves
the modelled state unchanged. -/
def KnowledgeBase.step (env : Env) (st : KBState) : Op → RetVal × KBState
  | .buildOp repo repoType token ed ef idl ifl force =>
    let r := KnowledgeBase.build env.isdir env.db_exists env.prepare st
      repo repoType token ed ef idl ifl force
    (.bool r.1, r.2)
  | .loadOp repo repoType token =>
    let r := KnowledgeBase.load env.isdir env.db_exists env.prepare st
      repo repoType token
    (.bool r.1, r.2)
  | .isBuiltOp repo =>
    (.bool (KnowledgeBase.is_built env.isdir env.db_exists repo), st)
  | .queryOp question language =>
    match KnowledgeBase.query st.is_ready env.call question language with
    | .ok a => (.answer a, st)
    | .error e => (.raised e, st)
  | .addTurnOp question answer =>
    (.bool (KnowledgeBase.add_conversation_turn st.is_ready env.add_dialog
      question answer), st)
  | .clearConvOp => (.noneVal, st)

/-- Runs a sequence of method calls from a state; each call carries the
environment (filesystem and backend behavior) it observes, so the world
may change between calls. -/
def KnowledgeBase.runOps (st : KBState) : List (Env × Op) → KBState
  | [] => st
  | (env, op) :: rest => KnowledgeBase.runOps (KnowledgeBase.step env st op).2 rest

/-- Helper: loading a record in the legacy unversioned format fails
with `SchemaMismatchError("unknown", CURRENT_SCHEMA_VERSION)`. -/
lemma load_unversioned_mismatch (fs : Store) (p : String) (r : PyVal)
    (hfs : fs p = some r) (hunv : unversionedRecord r) :
    load_state_with_version p fs
      = .error (.schemaMismatch (.strV "unknown") CURRENT_SCHEMA_VERSION) := by
  cases r with
  | dictV entries =>
    have h : dictLookup entries "schema_version" = Option.none := hunv
    simp [load_state_with_version, hfs, h]
  | noneV => simp [load_state_with_version, hfs]
  | boolV b => simp [load_state_with_version, hfs]
  | intV n => simp [load_state_with_version, hfs]
  | strV s => simp [load_state_with_version, hfs]
  | listV xs => simp [load_state_with_version, hfs]

/-- C1: saving an object at a path with the versioned store and loading
from that path returns the object unchanged; and loading any record
stored without a `schema_version` tag (or that is not a dict) fails
with `SchemaMismatchError` carrying found version `"unknown"` and
expected version `CURRENT_SCHEMA_VERSION`. -/
theorem spec_c1_save_load_round_trip :
    (∀ (obj : PyVal) (fs : Store) (p : String),
      load_state_with_version p (save_state_with_version obj p fs) = .ok obj) ∧
    (∀ (fs : Store) (p : String) (r : PyVal), fs p = some r → unversionedRecord r →
      load_state_with_version p fs
        = .error (.schemaMismatch (.strV "unknown") CURRENT_SCHEMA_VERSION)) := by
  constructor
  · intro obj fs p
    simp [load_state_with_version, save_state_with_version, dictLookup, pyEqStr,
      CURRENT_SCHEMA_VERSION]
  · exact fun fs p r hfs hunv => load_unversioned_mismatch fs p r hfs hunv

/-- Witness for C1: a list pickled directly at `"db.pkl"` (legacy
unversioned format) loads as a `SchemaMismatchError` with found version
`"unknown"`. -/
theorem spec_c1_witness :
    load_state_with_version "db.pkl"
      (fun p => if p = "db.pkl" then some (.listV []) else Option.none)
      = .error (.schemaMismatch (.strV "unknown") CURRENT_SCHEMA_VERSION) :=
  spec_c1_save_load_round_trip.2 _ "db.pkl" (.listV []) (by simp) True.intro

/-- C2 counterexample: a record that exists, is a dict, and carries the
current schema version, but has no `"data"` entry — loading neither
returns a payload nor fails with `NotFoundError`/`SchemaMismatchError`:
it raises `KeyError("data")`, refuting the claim that in every case
other than a missing record or a version mismatch the load returns the
stored payload. -/
theorem spec_c2_counterexample :
    load_state_with_version "db.pkl"
      (fun p => if p = "db.pkl"
        then some (.dictV [("schema_version", .strV CURRENT_SCHEMA_VERSION)])
        else Option.none)
      = .error (.keyError "data") := by
  rfl

/-- C2 (amended): loading fails with `FileNotFoundError` when no record
exists at the path; fails with `SchemaMismatchError("unknown",
CURRENT_SCHEMA_VERSION)` when the record is not a dict or lacks a
version tag; fails with `SchemaMismatchError(found,
CURRENT_SCHEMA_VERSION)` when the tag differs from the current version;
and when the tag matches, returns the record's `"data"` payload when
present and raises `KeyError("data")` when the record has no `"data"`
entry. -/
theorem spec_c2_load_cases :
    ∀ (fs : Store) (p : String),
      (fs p = Option.none →
        load_state_with_version p fs
          = .error (.fileNotFound ("Database file not found: " ++ p))) ∧
      (∀ r : PyVal, fs p = some r → unversionedRecord r →
        load_state_with_version p fs
          = .error (.schemaMismatch (.strV "unknown") CURRENT_SCHEMA_VERSION)) ∧
      (∀ entries found, fs p = some (.dictV entries) →
        dictLookup entries "schema_version" = some found →
        pyEqStr found CURRENT_SCHEMA_VERSION = false →
        load_state_with_version p fs
          = .error (.schemaMismatch found CURRENT_SCHEMA_VERSION)) ∧
      (∀ entries found d, fs p = some (.dictV entries) →
        dictLookup entries "schema_version" = some found →
        pyEqStr found CURRENT_SCHEMA_VERSION = true →
        dictLookup entries "data" = some d →
        load_state_with_version p fs = .ok d) ∧
      (∀ entries found, fs p = some (.dictV entries) →
        dictLookup entries "schema_version" = some found →
        pyEqStr found CURRENT_SCHEMA_VERSION = true →
        dictLookup entries "data" = Option.none →
        load_state_with_version p fs = .error (.keyError "data")) := by
  intro fs p
  refine ⟨?_, ?_, ?_, ?_, ?_⟩
  · intro h
    simp [load_state_with_version, h]
  · exact fun r hfs hunv => load_unversioned_mismatch fs p r hfs hunv
  · intro entries found hfs htag hne
    simp [load_state_with_version, hfs, htag, hne]
  · intro entries found d hfs htag heq hdata
    simp [load_state_with_version, hfs, htag, heq, hdata]
  · intro entries found hfs htag heq hdata
    simp [load_state_with_version, hfs, htag, heq, hdata]

/-- Witness for C2: loading a record saved with the current version tag
and payload `7` returns `7`. -/
theorem spec_c2_witness :
    load_state_with_version "db.pkl"
      (fun p => if p = "db.pkl"
        then some (.dictV [("schema_version", .strV CURRENT_SCHEMA_VERSION),
          ("data", .intV 7)])
        else Option.none)
      = .ok (.intV 7) :=
  (spec_c2_load_cases _ "db.pkl").2.2.2.1
    [("schema_version", .strV CURRENT_SCHEMA_VERSION), ("data", .intV 7)]
    (.strV CURRENT_SCHEMA_VERSION) (.intV 7)
    (by simp) (by rfl) (by rfl) (by rfl)

/-- C5: the URL resolver removes every occurrence of `".git"` from the
repo segment, not only a trailing one (`repo.replace('.git', '')`),
contradicting the code's own comment "Remove .git suffix if present"
and the spec.  On the GitHub-pages style repository
`https://github.com/foo/foo.github.io` the code yields
`"foo_foohub.io"` instead of the claimed `"foo_foo.github.io"`. -/
theorem spec_c5_git_replace_bug :
    KnowledgeBase.extract_repo_identifier (fun _ => false)
      "https://github.com/foo/foo.github.io" = "foo_foohub.io" ∧
    KnowledgeBase.extract_repo_identifier (fun _ => false)
      "https://github.com/foo/foo.github.io" ≠ "foo_foo.github.io" := by
  exact ⟨by rfl, by decide⟩

/-- C6: the `KnowledgeBase` facade defines no `query_stream` method at
all, although the repository's own end-to-end test
(`test_e2e_small_repo.py`, `test_e2e_streaming_functionality`) calls
`kb.query_stream(question)`; such a call raises `AttributeError`. -/
theorem spec_c6_no_query_stream :
    ¬ ("query_stream" ∈ KnowledgeBase.methodNames) := by
  decide

/-- C7: for every input that names an existing directory, the resolver
returns the directory's final path name verbatim (`Path(...).name`,
which never strips `".git"`); in particular the local directory
`/var/repos/project.git` resolves to `"project.git"`. -/
theorem spec_c7_local_path_verbatim :
    (∀ (isdir : String → Bool) (p : String), isdir p = true →
      KnowledgeBase.extract_repo_identifier isdir p = pathName p) ∧
    KnowledgeBase.extract_repo_identifier (fun s => s == "/var/repos/project.git")
      "/var/repos/project.git" = "project.git" := by
  constructor
  · intro isdir p h
    simp [KnowledgeBase.extract_repo_identifier, h]
  · rfl

/-- Witness for C7: an always-true directory check makes the resolver
return `Path(...).name` on a concrete path. -/
theorem spec_c7_witness :
    KnowledgeBase.extract_repo_identifier (fun _ => true) "/home/user/projects/my-repo"
      = pathName "/home/user/projects/my-repo" :=
  spec_c7_local_path_verbatim.1 (fun _ => true) "/home/user/projects/my-repo" rfl

/-- C8 counterexample: on the empty string — the claim's example of an
input that cannot be parsed — the resolver does not fail: it returns
the empty identifier.  No `IdentifierError` exists anywhere in the
code, and no branch of `_extract_repo_identifier` raises. -/
theorem spec_c8_counterexample :
    KnowledgeBase.extract_repo_identifier (fun _ => false) "" = "" := by
  rfl

/-- C8 (amended): the resolver never raises and has no side effects: it
is a total pure function of its input and the directory-existence
check, returning an identifier for every input; the unparseable empty
string yields the empty identifier rather than an `IdentifierError`
(which does not exist in the code). -/
theorem spec_c8_total_on_empty :
    ∀ isdir : String → Bool, KnowledgeBase.extract_repo_identifier isdir "" = "" := by
  intro isdir
  cases h : isdir "" with
  | true => unfold KnowledgeBase.extract_repo_identifier; rw [h]; rfl
  | false => unfold KnowledgeBase.extract_repo_identifier; rw [h]; rfl

/-- C9: which rule the resolver applies depends on live filesystem
state: the local-path rule (final segment verbatim) applies exactly
when the directory-existence check holds, and otherwise the input is
parsed as a URL with `".git"` removal on the repo segment — so the same
string `"repos/project.git"` resolves to `"project.git"` when the
directory exists and to `"repos_project"` when it does not. -/
theorem spec_c9_fs_dependent :
    (∀ (isdir : String → Bool) (s : String),
      (isdir s = true → KnowledgeBase.extract_repo_identifier isdir s = pathName s) ∧
      (isdir s = false → KnowledgeBase.extract_repo_identifier isdir s = urlResolve s)) ∧
    KnowledgeBase.extract_repo_identifier (fun _ => true) "repos/project.git"
      = "project.git" ∧
    KnowledgeBase.extract_repo_identifier (fun _ => false) "repos/project.git"
      = "repos_project" ∧
    KnowledgeBase.extract_repo_identifier (fun _ => true) "repos/project.git"
      ≠ KnowledgeBase.extract_repo_identifier (fun _ => false) "repos/project.git" := by
  refine ⟨?_, by rfl, by rfl, by decide⟩
  intro isdir s
  constructor
  · intro h
    simp [KnowledgeBase.extract_repo_identifier, h]
  · intro h
    simp [KnowledgeBase.extract_repo_identifier, h]

/-- Witness for C9: both branches of the rule choice, instantiated on a
concrete string. -/
theorem spec_c9_witness :
    KnowledgeBase.extract_repo_identifier (fun _ => false) "https://github.com/owner/repo"
      = urlResolve "https://github.com/owner/repo" :=
  (spec_c9_fs_dependent.1 (fun _ => false) "https://github.com/owner/repo").2 rfl

/-- C3: `query` raises exactly when the instance is not ready — a
not-ready call raises the `RuntimeError` precondition failure without
consulting the backend at all (its result is the same for every
backend), while a ready call always returns; and a backend error on a
ready instance is caught and converted into an explanatory answer
string paired with an empty retrieved-document list. -/
theorem spec_c3_query_error_handling :
    ∀ (call : String → String → Except String RagCallResult) (question language : String),
      (KnowledgeBase.query false call question language
          = .error (.runtimeError
              "Knowledge base is not ready. Call build() or load() first.")
        ∧ ∀ call₂, KnowledgeBase.query false call₂ question language
            = KnowledgeBase.query false call question language)
      ∧ (∃ res, KnowledgeBase.query true call question language = .ok res)
      ∧ (∀ e, call question language = .error e →
          KnowledgeBase.query true call question language
            = .ok ("I apologize, but I encountered an error while processing your question: "
                ++ e, [])) := by
  intro call question language
  refine ⟨⟨rfl, fun call₂ => rfl⟩, ?_, ?_⟩
  · cases hc : call question language with
    | error e =>
      exact ⟨("I apologize, but I encountered an error while processing your question: "
        ++ e, []), by simp [KnowledgeBase.query, hc]⟩
    | ok r =>
      cases r with
      | tuple2 a docs =>
        cases a with
        | ragAnswer ans => exact ⟨(ans, docs), by simp [KnowledgeBase.query, hc]⟩
        | nonRagAnswer s => exact ⟨(s, docs), by simp [KnowledgeBase.query, hc]⟩
      | other s => exact ⟨(s, []), by simp [KnowledgeBase.query, hc]⟩
  · intro e he
    simp [KnowledgeBase.query, he]

/-- Witness for C3: a backend that raises `"boom"` is converted into
the apologetic answer with no documents. -/
theorem spec_c3_witness :
    KnowledgeBase.query true (fun _ _ => .error "boom") "q" "en"
      = .ok ("I apologize, but I encountered an error while processing your question: boom",
          []) :=
  (spec_c3_query_error_handling (fun _ _ => .error "boom") "q" "en").2.2 "boom" rfl

/-- C4: when a non-empty database already exists for the derived
identifier and `force_rebuild` is false, `build` delegates to `load`
and returns exactly its result, and its outcome depends only on the
backend's behavior at the filterless `load` arguments (so the filtered
ingestion/embedding invocation is never consulted); and for every input
`build` returns a boolean — even a backend that raises on every
invocation produces the result `False`, never a propagated
exception. -/
theorem spec_c4_build_idempotent :
    ∀ (isdir db_exists : String → Bool) (prepare : PrepareArgs → Except String Unit)
      (st : KBState) (repo repoType : String) (token : Option String)
      (ed ef idl ifl : Option (List String)),
      (db_exists (KnowledgeBase.extract_repo_identifier isdir repo) = true →
        (KnowledgeBase.build isdir db_exists prepare st repo repoType token
            ed ef idl ifl false
          = KnowledgeBase.load isdir db_exists prepare st repo repoType token)
        ∧ ∀ prepare₂ : PrepareArgs → Except String Unit,
            prepare₂ (loadArgs repo repoType token)
              = prepare (loadArgs repo repoType token) →
            KnowledgeBase.build isdir db_exists prepare₂ st repo repoType token
                ed ef idl ifl false
              = KnowledgeBase.build isdir db_exists prepare st repo repoType token
                  ed ef idl ifl false)
      ∧ ∀ force : Bool,
          (∀ a : PrepareArgs, ∃ msg, prepare a = .error msg) →
          (KnowledgeBase.build isdir db_exists prepare st repo repoType token
            ed ef idl ifl force).1 = false := by
  intro isdir db_exists prepare st repo repoType token ed ef idl ifl
  constructor
  · intro h
    constructor
    · simp only [KnowledgeBase.build, Bool.not_false, Bool.true_and, h, if_true]
      rfl
    · intro prepare₂ hp
      simp only [KnowledgeBase.build, Bool.not_false, Bool.true_and, h, if_true,
        KnowledgeBase.load, hp]
  · intro force hfail
    obtain ⟨m1, hm1⟩ := hfail (loadArgs repo repoType token)
    obtain ⟨m2, hm2⟩ := hfail ⟨repo, repoType, token, ed, ef, idl, ifl⟩
    cases hc : (!force
        && db_exists (KnowledgeBase.extract_repo_identifier isdir repo)) with
    | true =>
      have hdb : db_exists (KnowledgeBase.extract_repo_identifier isdir repo) = true :=
        ((Bool.and_eq_true _ _).mp hc).2
      simp [KnowledgeBase.build, KnowledgeBase.load, hc, hdb, hm1]
      split <;> simp [hm2]
    | false =>
      simp [KnowledgeBase.build, hc, hm2]

/-- Witness for C4: with an existing database and no forced rebuild,
`build` returns exactly what `load` returns on the same state. -/
theorem spec_c4_witness :
    KnowledgeBase.build (fun _ => false) (fun _ => true) (fun _ => .ok ())
        KnowledgeBase.init "r" "github" Option.none Option.none Option.none
        Option.none Option.none false
      = KnowledgeBase.load (fun _ => false) (fun _ => true) (fun _ => .ok ())
          KnowledgeBase.init "r" "github" Option.none :=
  ((spec_c4_build_idempotent (fun _ => false) (fun _ => true) (fun _ => .ok ())
    KnowledgeBase.init "r" "github" Option.none Option.none Option.none
    Option.none Option.none).1 rfl).1

/-- Helper: `load` either returns `False` leaving `is_ready` as it was,
or returns `True` with `is_ready` set; in both cases
`repo_url_or_path` is overwritten with the argument. -/
lemma load_result_shape (isdir db_exists : String → Bool)
    (prepare : PrepareArgs → Except String Unit) (st : KBState)
    (repo repoType : String) (token : Option String) :
    KnowledgeBase.load isdir db_exists prepare st repo repoType token
        = (false, { repo_url_or_path := some repo, is_ready := st.is_ready })
      ∨ KnowledgeBase.load isdir db_exists prepare st repo repoType token
          = (true, { repo_url_or_path := some repo, is_ready := true }) := by
  unfold KnowledgeBase.load
  dsimp only
  split
  · left; rfl
  · split
    · left; rfl
    · right; rfl

/-- Helper: `build` either returns `False` leaving `is_ready` as it
was, or returns `True` with `is_ready` set. -/
lemma build_result_shape (isdir db_exists : String → Bool)
    (prepare : PrepareArgs → Except String Unit) (st : KBState)
    (repo repoType : String) (token : Option String)
    (ed ef idl ifl : Option (List String)) (force : Bool) :
    KnowledgeBase.build isdir db_exists prepare st repo repoType token
        ed ef idl ifl force
        = (false, { repo_url_or_path := some repo, is_ready := st.is_ready })
      ∨ KnowledgeBase.build isdir db_exists prepare st repo repoType token
          ed ef idl ifl force
          = (true, { repo_url_or_path := some repo, is_ready := true }) := by
  unfold KnowledgeBase.build
  dsimp only
  split
  · exact load_result_shape isdir db_exists prepare _ repo repoType token
  · split
    · left; rfl
    · right; rfl

/-- Helper: a method call whose returned value is not the boolean
`True` leaves `is_ready` exactly as it was. -/
lemma step_ready_unchanged (env : Env) (st : KBState) (op : Op)
    (h : (KnowledgeBase.step env st op).1 ≠ RetVal.bool true) :
    ((KnowledgeBase.step env st op).2).is_ready = st.is_ready := by
  cases op with
  | buildOp r t tok ed ef idl ifl force =>
    rcases build_result_shape env.isdir env.db_exists env.prepare st r t tok
        ed ef idl ifl force with hb | hb
    · simp [KnowledgeBase.step, hb]
    · exact absurd (by simp [KnowledgeBase.step, hb]) h
  | loadOp r t tok =>
    rcases load_result_shape env.isdir env.db_exists env.prepare st r t tok with hb | hb
    · simp [KnowledgeBase.step, hb]
    · exact absurd (by simp [KnowledgeBase.step, hb]) h
  | isBuiltOp r => rfl
  | queryOp q l =>
    cases hq : KnowledgeBase.query st.is_ready env.call q l <;>
      simp [KnowledgeBase.step, hq]
  | addTurnOp q a => rfl
  | clearConvOp => rfl

/-- Helper: a method call other than `build` or `load` does not change
the modelled instance state at all. -/
lemma step_state_unchanged (env : Env) (st : KBState) (op : Op)
    (h : Op.isBuildOrLoad op = false) :
    (KnowledgeBase.step env st op).2 = st := by
  cases op with
  | buildOp r t tok ed ef idl ifl force => simp [Op.isBuildOrLoad] at h
  | loadOp r t tok => simp [Op.isBuildOrLoad] at h
  | isBuiltOp r => rfl
  | queryOp q l =>
    cases hq : KnowledgeBase.query st.is_ready env.call q l <;>
      simp [KnowledgeBase.step, hq]
  | addTurnOp q a => rfl
  | clearConvOp => rfl

/-- Helper: if a method call leaves `is_ready` set, then either it was
already set before the call, or the call was a `build` or `load` that
returned `True`. -/
lemma step_ready_source (env : Env) (st : KBState) (op : Op)
    (h : ((KnowledgeBase.step env st op).2).is_ready = true) :
    st.is_ready = true ∨
      ((KnowledgeBase.step env st op).1 = RetVal.bool true
        ∧ Op.isBuildOrLoad op = true) := by
  cases op with
  | buildOp r t tok ed ef idl ifl force =>
    rcases build_result_shape env.isdir env.db_exists env.prepare st r t tok
        ed ef idl ifl force with hb | hb
    · left; simpa [KnowledgeBase.step, hb] using h
    · right; exact ⟨by simp [KnowledgeBase.step, hb], rfl⟩
  | loadOp r t tok =>
    rcases load_result_shape env.isdir env.db_exists env.prepare st r t tok with hb | hb
    · left; simpa [KnowledgeBase.step, hb] using h
    · right; exact ⟨by simp [KnowledgeBase.step, hb], rfl⟩
  | isBuiltOp r => left; exact h
  | queryOp q l =>
    left
    cases hq : KnowledgeBase.query st.is_ready env.call q l <;>
      simpa [KnowledgeBase.step, hq] using h
  | addTurnOp q a => left; exact h
  | clearConvOp => left; exact h

/-- Helper: along any call sequence, a set `is_ready` flag traces back
either to the start state or to some `build`/`load` call in the
sequence that returned `True`. -/
lemma runOps_ready_source :
    ∀ (trace : List (Env × Op)) (st : KBState),
      (KnowledgeBase.runOps st trace).is_ready = true →
      st.is_ready = true ∨
        ∃ pre eop post, trace = pre ++ eop :: post ∧
          Op.isBuildOrLoad eop.2 = true ∧
          (KnowledgeBase.step eop.1 (KnowledgeBase.runOps st pre) eop.2).1
            = RetVal.bool true := by
  intro trace
  induction trace with
  | nil => exact fun st h => Or.inl h
  | cons head rest ih =>
    intro st h
    obtain ⟨env, op⟩ := head
    have h' : (KnowledgeBase.runOps (KnowledgeBase.step env st op).2 rest).is_ready
        = true := h
    cases ih (KnowledgeBase.step env st op).2 h' with
    | inr hex =>
      obtain ⟨pre, eop, post, hsplit, hbl, hret⟩ := hex
      exact Or.inr ⟨(env, op) :: pre, eop, post, by rw [hsplit]; rfl, hbl, hret⟩
    | inl hr =>
      cases step_ready_source env st op hr with
      | inl hst => exact Or.inl hst
      | inr hb => exact Or.inr ⟨[], (env, op), rest, rfl, hb.2, hb.1⟩

/-- C10: a fresh instance is not ready; a call whose result is not the
boolean `True` leaves `is_ready` unchanged; operations other than
`build` and `load` never change the modelled state at all; and whenever
`is_ready` holds after a sequence of calls on a fresh instance, some
earlier `build` or `load` call in that sequence returned `True`. -/
theorem spec_c10_ready_invariant :
    KnowledgeBase.init.is_ready = false ∧
    (∀ (env : Env) (st : KBState) (op : Op),
      (KnowledgeBase.step env st op).1 ≠ RetVal.bool true →
      ((KnowledgeBase.step env st op).2).is_ready = st.is_ready) ∧
    (∀ (env : Env) (st : KBState) (op : Op), Op.isBuildOrLoad op = false →
      (KnowledgeBase.step env st op).2 = st) ∧
    (∀ trace : List (Env × Op),
      (KnowledgeBase.runOps KnowledgeBase.init trace).is_ready = true →
      ∃ pre eop post, trace = pre ++ eop :: post ∧
        Op.isBuildOrLoad eop.2 = true ∧
        (KnowledgeBase.step eop.1 (KnowledgeBase.runOps KnowledgeBase.init pre) eop.2).1
          = RetVal.bool true) := by
  refine ⟨rfl, step_ready_unchanged, step_state_unchanged, ?_⟩
  intro trace h
  cases runOps_ready_source trace KnowledgeBase.init h with
  | inl hinit => exact absurd hinit (by simp [KnowledgeBase.init])
  | inr hex => exact hex

/-- Witness for C10: after a single successful `load` call on a fresh
instance, the ready flag traces back to that call returning `True`. -/
theorem spec_c10_witness :
    ∃ pre eop post,
      [((⟨fun _ => false, fun _ => true, fun _ => .ok (),
          fun _ _ => .error "x", fun _ _ => .ok true⟩ : Env),
        Op.loadOp "r" "github" Option.none)]
        = pre ++ eop :: post ∧
      Op.isBuildOrLoad eop.2 = true ∧
      (KnowledgeBase.step eop.1 (KnowledgeBase.runOps KnowledgeBase.init pre) eop.2).1
        = RetVal.bool true :=
  spec_c10_ready_invariant.2.2.2
    [((⟨fun _ => false, fun _ => true, fun _ => .ok (),
        fun _ _ => .error "x", fun _ _ => .ok true⟩ : Env),
      Op.loadOp "r" "github" Option.none)]
    (by rfl)

end DeepWiki
